import Mathlib

/-!
Shallow embedding of the marcsync Node.js client (src/Entry.ts, src/Collection.ts,
src/SubscriptionManager.ts, src/marcsync.ts).

Every HTTP operation of the client is modelled as a pure function from the
object's state, the call's arguments and the outcome of the `fetch` call to an
`Except`-classified result (and, for stateful objects, a post-state).  The
`fetch` outcome is either a transport-level rejection, or a response carrying a
numeric status and an optional parsed JSON body (`none` models a body on which
`result.json()` would throw).
-/

namespace Marcsync

/-- A JSON-compatible field value (the `any` values stored in `EntryData`). -/
inductive Val where
  | str (s : String)
  | num (n : Int)
  | bool (b : Bool)
  | null
deriving DecidableEq, Repr

/-- `EntryData`: a JS object mapping field names to values, modelled as an
association list in property-insertion order. -/
abbrev EntryData := List (String × Val)

/-- JS property read `d[k]`: first binding of `k`, `none` for `undefined`. -/
def lookupKey : EntryData → String → Option Val
  | [], _ => none
  | (k0, v0) :: rest, k => if k0 = k then some v0 else lookupKey rest k

/-- JS property write `d[k] = v`: replaces the binding in place if present,
otherwise appends it (insertion-order semantics of JS objects). -/
def setKey : EntryData → String → Val → EntryData
  | [], k, v => [(k, v)]
  | (k0, v0) :: rest, k, v =>
    if k0 = k then (k, v) :: rest else (k0, v0) :: setKey rest k v

/-- `for (const key in values) data[key] = values[key]` from `Entry.updateValues`. -/
def applyValues (d : EntryData) (values : EntryData) : EntryData :=
  values.foldl (fun acc kv => setKey acc kv.1 kv.2) d

/-- The parsed JSON response body fields this client reads. -/
structure JsonBody where
  success : Bool
  objectId : Val
  entries : List EntryData
  deletedEntries : Nat
  modifiedEntries : Nat
deriving DecidableEq, Repr

/-- Outcome of one `fetch` call: a transport rejection, or a response with a
status and an optional parsed body (`none`: `result.json()` throws). -/
inductive FetchOutcome where
  | netErr (msg : String)
  | resp (status : Nat) (body : Option JsonBody)
deriving DecidableEq, Repr

/-- The payload wrapped by `EntryUpdateFailed`: either the original transport
error or the message of a locally thrown `Error`. -/
inductive Cause where
  | transport (msg : String)
  | message (s : String)
deriving DecidableEq, Repr

/-- The error classes raised by the library (src/marcsync.ts, src/Entry.ts,
src/Collection.ts). -/
inductive MErr where
  | unauthorized
  | collectionNotFound (msg : String)
  | collectionAlreadyExists (msg : String)
  | entryNotFound (msg : String)
  | entryUpdateFailed (cause : Cause)
deriving DecidableEq, Repr

/-- The JSON request body shapes this client sends. -/
inductive ReqBody where
  | empty
  | collectionName (name : String)
  | filters (f : EntryData)
  | filtersData (f : EntryData) (d : EntryData)
  | data (d : EntryData)
deriving DecidableEq, Repr

/-- An outbound HTTP request as assembled by the client. -/
structure HttpRequest where
  url : String
  method : String
  authorization : String
  body : ReqBody
deriving DecidableEq, Repr

/-- `class Entry extends BaseEntry` (src/Entry.ts): an owned entry holds the
credential, the identifier captured at construction, and the field mapping. -/
structure Entry where
  accessToken : String
  collectionName : String
  entryId : Option Val
  data : EntryData
deriving DecidableEq, Repr

/-- `new Entry(accessToken, collectionName, data)`: the identifier is read once
from `data._id` (`none` models `undefined` when the field is absent). -/
def Entry.fromData (accessToken collectionName : String) (data : EntryData) : Entry :=
  { accessToken := accessToken, collectionName := collectionName,
    entryId := lookupKey data "_id", data := data }

/-- `BaseEntry.getValues()`. -/
def Entry.getValues (e : Entry) : EntryData := e.data

/-- The `{ _id: this._entryId }` filter object after `JSON.stringify`
(an `undefined` identifier is dropped by stringification). -/
def Entry.idFilters (e : Entry) : EntryData :=
  match e.entryId with
  | some v => [("_id", v)]
  | none => []

/-- The PUT request `Entry.updateValue` / `Entry.updateValues` issue. -/
def Entry.updateRequest (e : Entry) (payload : EntryData) : HttpRequest :=
  { url := "https://api.marcsync.dev/v1/entries/" ++ e.collectionName,
    method := "PUT", authorization := e.accessToken,
    body := ReqBody.filtersData e.idFilters payload }

/-- The DELETE request `Entry.delete` issues. -/
def Entry.deleteRequest (e : Entry) : HttpRequest :=
  { url := "https://api.marcsync.dev/v1/entries/" ++ e.collectionName,
    method := "DELETE", authorization := e.accessToken,
    body := ReqBody.filters e.idFilters }

/-- `Entry.updateValue(key, value)`: any fetch rejection or non-200 status is
re-thrown as `EntryUpdateFailed` (wrapping the caught error); on 200 the field
is merged into the local mapping, which is also returned. -/
def Entry.updateValue (e : Entry) (key : String) (value : Val) (o : FetchOutcome) :
    Except MErr EntryData × Entry :=
  match o with
  | .netErr msg => (.error (.entryUpdateFailed (.transport msg)), e)
  | .resp status _ =>
    if status ≠ 200 then
      (.error (.entryUpdateFailed (.message "Failed to update entry")), e)
    else
      (.ok (setKey e.data key value), { e with data := setKey e.data key value })

/-- `Entry.updateValues(values)`: same classification, merging every field of
`values` in iteration order on success. -/
def Entry.updateValues (e : Entry) (values : EntryData) (o : FetchOutcome) :
    Except MErr EntryData × Entry :=
  match o with
  | .netErr msg => (.error (.entryUpdateFailed (.transport msg)), e)
  | .resp status _ =>
    if status ≠ 200 then
      (.error (.entryUpdateFailed (.message "Failed to update entry")), e)
    else
      (.ok (applyValues e.data values), { e with data := applyValues e.data values })

/-- `Entry.delete()`: any failure is re-thrown as
`EntryUpdateFailed("Could not delete entry")`; local state is never touched. -/
def Entry.delete (e : Entry) (o : FetchOutcome) : Except MErr Unit × Entry :=
  match o with
  | .netErr _ => (.error (.entryUpdateFailed (.message "Could not delete entry")), e)
  | .resp status _ =>
    if status ≠ 200 then
      (.error (.entryUpdateFailed (.message "Could not delete entry")), e)
    else
      (.ok (), e)

/-- `class Collection` (src/Collection.ts): holds only the credential and the
collection name captured at construction. -/
structure Collection where
  accessToken : String
  collectionName : String
deriving DecidableEq, Repr

/-- `GET /v0/collection/{name}` issued by `Collection.exists`. -/
def Collection.existsRequest (c : Collection) : HttpRequest :=
  { url := "https://api.marcsync.dev/v0/collection/" ++ c.collectionName,
    method := "GET", authorization := c.accessToken, body := ReqBody.empty }

/-- `DELETE /v0/collection/{name}` issued by `Collection.drop`. -/
def Collection.dropRequest (c : Collection) : HttpRequest :=
  { url := "https://api.marcsync.dev/v0/collection/" ++ c.collectionName,
    method := "DELETE", authorization := c.accessToken, body := ReqBody.empty }

/-- `PUT /v0/collection/{name}` with body `{collectionName}` issued by
`Collection.setName`. -/
def Collection.setNameRequest (c : Collection) (name : String) : HttpRequest :=
  { url := "https://api.marcsync.dev/v0/collection/" ++ c.collectionName,
    method := "PUT", authorization := c.accessToken,
    body := ReqBody.collectionName name }

/-- `POST /v0/entries/{name}` with body `{data}` issued by
`Collection.createEntry`. -/
def Collection.createEntryRequest (c : Collection) (data : EntryData) : HttpRequest :=
  { url := "https://api.marcsync.dev/v0/entries/" ++ c.collectionName,
    method := "POST", authorization := c.accessToken, body := ReqBody.data data }

/-- `PATCH /v1/entries/{name}?methodOverwrite=GET` with body
`{filters: {_id: id}}` issued by `Collection.getEntryById`. -/
def Collection.getEntryByIdRequest (c : Collection) (id : String) : HttpRequest :=
  { url := "https://api.marcsync.dev/v1/entries/" ++ c.collectionName
      ++ "?methodOverwrite=GET",
    method := "PATCH", authorization := c.accessToken,
    body := ReqBody.filters [("_id", Val.str id)] }

/-- `PATCH /v1/entries/{name}?methodOverwrite=GET` with body
`{filters: filter || \x7b\x7d}` issued by `Collection.getEntries`. -/
def Collection.getEntriesRequest (c : Collection) (filter : Option EntryData) : HttpRequest :=
  { url := "https://api.marcsync.dev/v1/entries/" ++ c.collectionName
      ++ "?methodOverwrite=GET",
    method := "PATCH", authorization := c.accessToken,
    body := ReqBody.filters (filter.getD []) }

/-- `DELETE /v1/entries/{name}` with body `{filters: {_id: id}}` issued by
`Collection.deleteEntryById`. -/
def Collection.deleteEntryByIdRequest (c : Collection) (id : String) : HttpRequest :=
  { url := "https://api.marcsync.dev/v1/entries/" ++ c.collectionName,
    method := "DELETE", authorization := c.accessToken,
    body := ReqBody.filters [("_id", Val.str id)] }

/-- `DELETE /v1/entries/{name}` issued by `Collection.deleteEntries`; an
omitted filter is dropped entirely by `JSON.stringify`. -/
def Collection.deleteEntriesRequest (c : Collection) (filter : Option EntryData) : HttpRequest :=
  { url := "https://api.marcsync.dev/v1/entries/" ++ c.collectionName,
    method := "DELETE", authorization := c.accessToken,
    body := match filter with
      | some f => ReqBody.filters f
      | none => ReqBody.empty }

/-- `PUT /v1/entries/{name}` with body `{filters: {_id: id}, data}` issued by
`Collection.updateEntryById`. -/
def Collection.updateEntryByIdRequest (c : Collection) (id : String) (data : EntryData) :
    HttpRequest :=
  { url := "https://api.marcsync.dev/v1/entries/" ++ c.collectionName,
    method := "PUT", authorization := c.accessToken,
    body := ReqBody.filtersData [("_id", Val.str id)] data }

/-- `PUT /v1/entries/{name}` with body `{filters, data}` issued by
`Collection.updateEntries`. -/
def Collection.updateEntriesRequest (c : Collection) (filter data : EntryData) : HttpRequest :=
  { url := "https://api.marcsync.dev/v1/entries/" ++ c.collectionName,
    method := "PUT", authorization := c.accessToken,
    body := ReqBody.filtersData filter data }

/-- `Collection.drop()`: 401 first, then any body/`success` failure collapses
to `CollectionNotFound("Failed to drop collection")`. -/
def Collection.drop (c : Collection) (o : FetchOutcome) : Except MErr Unit :=
  match o with
  | .netErr _ => .error (.collectionNotFound "Failed to drop collection")
  | .resp status body =>
    if status = 401 then .error .unauthorized
    else
      match body with
      | none => .error (.collectionNotFound "Failed to drop collection")
      | some b =>
        if b.success then .ok ()
        else .error (.collectionNotFound "Failed to drop collection")

/-- The result classification of `Collection.setName(name)`. -/
def Collection.setNameResult (c : Collection) (name : String) (o : FetchOutcome) :
    Except MErr Unit :=
  match o with
  | .netErr _ => .error (.collectionNotFound "Failed to set collection name")
  | .resp status body =>
    if status = 401 then .error .unauthorized
    else
      match body with
      | none => .error (.collectionNotFound "Failed to set collection name")
      | some b =>
        if b.success then .ok ()
        else .error (.collectionNotFound "Failed to set collection name")

/-- `Collection.setName(name)`: the method body never assigns
`this._collectionName`, so the post-state is the receiver unchanged. -/
def Collection.setName (c : Collection) (name : String) (o : FetchOutcome) :
    Except MErr Unit × Collection :=
  (Collection.setNameResult c name o, c)

/-- `Collection.getName()`. -/
def Collection.getName (c : Collection) : String := c.collectionName

/-- `Collection.exists()`: 401 raises `Unauthorized`; every other failure is
folded into `false`. -/
def Collection.exists (c : Collection) (o : FetchOutcome) : Except MErr Bool :=
  match o with
  | .netErr _ => .ok false
  | .resp status body =>
    if status = 401 then .error .unauthorized
    else
      match body with
      | none => .ok false
      | some b => if b.success then .ok true else .ok false

/-- `Collection.createEntry(data)`: on success `data._id = json.objectId` is
merged and a new `Entry` is constructed from the result. -/
def Collection.createEntry (c : Collection) (data : EntryData) (o : FetchOutcome) :
    Except MErr Entry :=
  match o with
  | .netErr _ => .error (.collectionNotFound "Failed to create entry")
  | .resp status body =>
    if status = 401 then .error .unauthorized
    else
      match body with
      | none => .error (.collectionNotFound "Failed to create entry")
      | some b =>
        if b.success then
          .ok (Entry.fromData c.accessToken c.collectionName (setKey data "_id" b.objectId))
        else .error (.collectionNotFound "Failed to create entry")

/-- `Collection.getEntryById(id)`: zero returned entries raises
`EntryNotFound` (default message), other failures `CollectionNotFound`. -/
def Collection.getEntryById (c : Collection) (id : String) (o : FetchOutcome) :
    Except MErr Entry :=
  match o with
  | .netErr _ => .error (.collectionNotFound "Failed to fetch entry")
  | .resp status body =>
    if status = 401 then .error .unauthorized
    else
      match body with
      | none => .error (.collectionNotFound "Failed to fetch entry")
      | some b =>
        if b.success then
          match b.entries with
          | [] => .error (.entryNotFound "Failed to fetch entry by Id")
          | entry :: _ => .ok (Entry.fromData c.accessToken c.collectionName entry)
        else .error (.collectionNotFound "Failed to fetch entry")

/-- `Collection.getEntries(filter?)`: maps returned records to owned entries
in response order. -/
def Collection.getEntries (c : Collection) (filter : Option EntryData) (o : FetchOutcome) :
    Except MErr (List Entry) :=
  match o with
  | .netErr _ => .error (.collectionNotFound "Failed to fetch entries")
  | .resp status body =>
    if status = 401 then .error .unauthorized
    else
      match body with
      | none => .error (.collectionNotFound "Failed to fetch entries")
      | some b =>
        if b.success then
          .ok (b.entries.map (Entry.fromData c.accessToken c.collectionName))
        else .error (.collectionNotFound "Failed to fetch entries")

/-- `Collection.deleteEntryById(id)`: `deletedEntries === 0` raises
`EntryNotFound`; the catch block re-signals every non-401 failure as
`EntryNotFound("Failed to delete entry")`. -/
def Collection.deleteEntryById (c : Collection) (id : String) (o : FetchOutcome) :
    Except MErr String :=
  match o with
  | .netErr _ => .error (.entryNotFound "Failed to delete entry")
  | .resp status body =>
    if status = 401 then .error .unauthorized
    else
      match body with
      | none => .error (.entryNotFound "Failed to delete entry")
      | some b =>
        if b.success then
          if b.deletedEntries = 0 then .error (.entryNotFound "Failed to delete entry")
          else .ok id
        else .error (.entryNotFound "Failed to delete entry")

/-- `Collection.deleteEntries(filter?)`: returns the deleted count; zero is a
normal result. -/
def Collection.deleteEntries (c : Collection) (filter : Option EntryData) (o : FetchOutcome) :
    Except MErr Nat :=
  match o with
  | .netErr _ => .error (.entryNotFound "Failed to delete entries")
  | .resp status body =>
    if status = 401 then .error .unauthorized
    else
      match body with
      | none => .error (.entryNotFound "Failed to delete entries")
      | some b =>
        if b.success then .ok b.deletedEntries
        else .error (.entryNotFound "Failed to delete entries")

/-- `Collection.updateEntryById(id, data)`: `modifiedEntries === 0` raises
`EntryNotFound`; the catch block re-signals every non-401 failure as
`EntryNotFound("Failed to update entry")`. -/
def Collection.updateEntryById (c : Collection) (id : String) (data : EntryData)
    (o : FetchOutcome) : Except MErr String :=
  match o with
  | .netErr _ => .error (.entryNotFound "Failed to update entry")
  | .resp status body =>
    if status = 401 then .error .unauthorized
    else
      match body with
      | none => .error (.entryNotFound "Failed to update entry")
      | some b =>
        if b.success then
          if b.modifiedEntries = 0 then .error (.entryNotFound "Failed to update entry")
          else .ok id
        else .error (.entryNotFound "Failed to update entry")

/-- `Collection.updateEntries(filter, data)`: returns the modified count; zero
is a normal result. -/
def Collection.updateEntries (c : Collection) (filter data : EntryData) (o : FetchOutcome) :
    Except MErr Nat :=
  match o with
  | .netErr _ => .error (.entryNotFound "Failed to update entries")
  | .resp status body =>
    if status = 401 then .error .unauthorized
    else
      match body with
      | none => .error (.entryNotFound "Failed to update entries")
      | some b =>
        if b.success then .ok b.modifiedEntries
        else .error (.entryNotFound "Failed to update entries")

/-- `class Client` (src/marcsync.ts): holds the credential. -/
structure Client where
  accessToken : String
deriving DecidableEq, Repr

/-- `Client.fetchCollection(name)`: 401 first; any other failure raises
`CollectionNotFound` with its default message. -/
def Client.fetchCollection (cl : Client) (collectionName : String) (o : FetchOutcome) :
    Except MErr Collection :=
  match o with
  | .netErr _ => .error (.collectionNotFound "Failed to fetch collection")
  | .resp status body =>
    if status = 401 then .error .unauthorized
    else
      match body with
      | none => .error (.collectionNotFound "Failed to fetch collection")
      | some b =>
        if b.success then
          .ok { accessToken := cl.accessToken, collectionName := collectionName }
        else .error (.collectionNotFound "Failed to fetch collection")

/-- `Client.createCollection(name)`: 401 first; any other failure raises
`CollectionAlreadyExists` with its default message. -/
def Client.createCollection (cl : Client) (collectionName : String) (o : FetchOutcome) :
    Except MErr Collection :=
  match o with
  | .netErr _ => .error (.collectionAlreadyExists "Collection already exists")
  | .resp status body =>
    if status = 401 then .error .unauthorized
    else
      match body with
      | none => .error (.collectionAlreadyExists "Collection already exists")
      | some b =>
        if b.success then
          .ok { accessToken := cl.accessToken, collectionName := collectionName }
        else .error (.collectionAlreadyExists "Collection already exists")

/-- `class BaseEntry` (src/Entry.ts): read-only view, values plus collection
name, no credential. -/
structure BaseEntry where
  data : EntryData
  collectionName : String
deriving DecidableEq, Repr

/-- The three event kinds of `ClientEvents` (src/marcsync.ts). -/
inductive EventKind where
  | entryCreated
  | entryUpdated
  | entryDeleted
deriving DecidableEq, Repr

/-- The argument tuple a dispatch handler passes to each listener. -/
inductive DispatchArgs where
  | created (entry : Entry) (databaseId : String) (timestamp : Int)
  | deleted (entry : BaseEntry) (databaseId : String) (timestamp : Int)
  | updated (oldEntry : BaseEntry) (newEntry : Entry) (databaseId : String) (timestamp : Int)
deriving DecidableEq

/-- A registered callback: it either returns or raises (the raised value is
what `console.error` would receive). -/
abbrev Listener := DispatchArgs → Except String Unit

/-- Decoded `entryCreated` envelope (src/SubscriptionManager.ts). -/
structure EntryCreatedEvent where
  databaseId : String
  timestamp : Int
  type : Int
  collectionName : String
  values : EntryData

/-- Decoded `entryDeleted` envelope. -/
structure EntryDeletedEvent where
  databaseId : String
  timestamp : Int
  type : Int
  collectionName : String
  values : EntryData

/-- Decoded `entryUpdated` envelope. -/
structure EntryUpdatedEvent where
  databaseId : String
  timestamp : Int
  type : Int
  collectionName : String
  oldValues : EntryData
  newValues : EntryData

/-- `class SubscriptionManager`: `_subscriptions` starts as `\x7b\x7d`, so each
per-kind listener list is absent (`none`) until the first `subscribe`. -/
structure SubscriptionManager where
  accessToken : String
  entryCreatedSubs : Option (List Listener)
  entryUpdatedSubs : Option (List Listener)
  entryDeletedSubs : Option (List Listener)

/-- `new SubscriptionManager(accessToken)`: empty subscription record. -/
def SubscriptionManager.new (accessToken : String) : SubscriptionManager :=
  { accessToken := accessToken, entryCreatedSubs := none,
    entryUpdatedSubs := none, entryDeletedSubs := none }

/-- `this._subscriptions[subscription]` read. -/
def SubscriptionManager.subsOf (m : SubscriptionManager) : EventKind → Option (List Listener)
  | .entryCreated => m.entryCreatedSubs
  | .entryUpdated => m.entryUpdatedSubs
  | .entryDeleted => m.entryDeletedSubs

/-- `this._subscriptions[subscription] = ls` write. -/
def SubscriptionManager.setSubs (m : SubscriptionManager) (k : EventKind)
    (ls : List Listener) : SubscriptionManager :=
  match k with
  | .entryCreated => { m with entryCreatedSubs := some ls }
  | .entryUpdated => { m with entryUpdatedSubs := some ls }
  | .entryDeleted => { m with entryDeletedSubs := some ls }

/-- `subscribe(subscription, callback)`: create the list on first use, then
push the callback at the end. -/
def SubscriptionManager.subscribe (m : SubscriptionManager) (k : EventKind)
    (f : Listener) : SubscriptionManager :=
  m.setSubs k ((m.subsOf k).getD [] ++ [f])

/-- A run of `subscribe` calls, in order. -/
def SubscriptionManager.subscribeAll (m : SubscriptionManager)
    (trace : List (EventKind × Listener)) : SubscriptionManager :=
  trace.foldl (fun acc p => acc.subscribe p.1 p.2) m

/-- The error a handler hits when it dereferences an absent listener list. -/
inductive JsError where
  | typeError (msg : String)
deriving DecidableEq, Repr

/-- The `TypeError` thrown by `undefined.forEach(...)`. -/
def forEachTypeError : JsError :=
  JsError.typeError "Cannot read properties of undefined (reading forEach)"

/-- `ls.forEach(callback => \x7b try \x7b callback(args) \x7d catch(e)
\x7bconsole.error(e)\x7d \x7d)`: every callback is invoked with the same
arguments; a raised value is caught and recorded, and iteration continues. -/
def dispatchList (ls : List Listener) (args : DispatchArgs) : List (Except String Unit) :=
  match ls with
  | [] => []
  | f :: rest => f args :: dispatchList rest args

/-- One inbound event for kind `k`: the handler reads
`this._subscriptions[k]` and calls `.forEach` on it — a `TypeError` if the
list was never created. -/
def SubscriptionManager.dispatch (m : SubscriptionManager) (k : EventKind)
    (args : DispatchArgs) : Except JsError (List (Except String Unit)) :=
  match m.subsOf k with
  | none => .error forEachTypeError
  | some ls => .ok (dispatchList ls args)

/-- The `entryCreated` hub handler: builds one owned `Entry` from the payload
and dispatches `(entry, databaseId, timestamp)`. -/
def SubscriptionManager.onEntryCreated (m : SubscriptionManager)
    (e : EntryCreatedEvent) : Except JsError (List (Except String Unit)) :=
  m.dispatch .entryCreated
    (DispatchArgs.created (Entry.fromData m.accessToken e.collectionName e.values)
      e.databaseId e.timestamp)

/-- The `entryDeleted` hub handler: builds one read-only `BaseEntry` and
dispatches `(entry, databaseId, timestamp)`. -/
def SubscriptionManager.onEntryDeleted (m : SubscriptionManager)
    (e : EntryDeletedEvent) : Except JsError (List (Except String Unit)) :=
  m.dispatch .entryDeleted
    (DispatchArgs.deleted { data := e.values, collectionName := e.collectionName }
      e.databaseId e.timestamp)

/-- The `entryUpdated` hub handler: builds the old `BaseEntry` and the new
owned `Entry` and dispatches `(oldEntry, newEntry, databaseId, timestamp)`. -/
def SubscriptionManager.onEntryUpdated (m : SubscriptionManager)
    (e : EntryUpdatedEvent) : Except JsError (List (Except String Unit)) :=
  m.dispatch .entryUpdated
    (DispatchArgs.updated { data := e.oldValues, collectionName := e.collectionName }
      (Entry.fromData m.accessToken e.collectionName e.newValues)
      e.databaseId e.timestamp)

/-- One owned-entry method call together with the outcome its `fetch` had. -/
inductive EntryOp where
  | updateValue (key : String) (value : Val) (o : FetchOutcome)
  | updateValues (values : EntryData) (o : FetchOutcome)
  | delete (o : FetchOutcome)

/-- The post-state of one owned-entry call. -/
def Entry.step (e : Entry) : EntryOp → Entry
  | .updateValue k v o => (Entry.updateValue e k v o).2
  | .updateValues vs o => (Entry.updateValues e vs o).2
  | .delete o => (Entry.delete e o).2

/-- The post-state after a sequence of owned-entry calls. -/
def Entry.run (e : Entry) (ops : List EntryOp) : Entry :=
  ops.foldl Entry.step e

/-! ### Helper lemmas -/

theorem lookupKey_setKey_self (d : EntryData) (k : String) (v : Val) :
    lookupKey (setKey d k v) k = some v := by
  induction d with
  | nil => simp [setKey, lookupKey]
  | cons hd tl ih =>
    obtain ⟨k0, v0⟩ := hd
    by_cases h : k0 = k
    · simp [setKey, h, lookupKey]
    · simp [setKey, h, lookupKey, ih]

theorem lookupKey_setKey_ne (d : EntryData) (k k' : String) (v : Val) (h : k' ≠ k) :
    lookupKey (setKey d k v) k' = lookupKey d k' := by
  induction d with
  | nil =>
    simp [setKey, lookupKey, Ne.symm h]
  | cons hd tl ih =>
    obtain ⟨k0, v0⟩ := hd
    by_cases h0 : k0 = k
    · subst h0
      simp [setKey, lookupKey, Ne.symm h]
    · by_cases h1 : k0 = k'
      · simp [setKey, h0, lookupKey, h1, h]
      · simp [setKey, h0, lookupKey, h1, ih]

theorem Entry.step_fields (e : Entry) (op : EntryOp) :
    (Entry.step e op).entryId = e.entryId ∧
    (Entry.step e op).accessToken = e.accessToken ∧
    (Entry.step e op).collectionName = e.collectionName := by
  cases op with
  | updateValue k v o =>
    cases o with
    | netErr msg => exact ⟨rfl, rfl, rfl⟩
    | resp status body =>
      simp only [Entry.step, Entry.updateValue]
      split <;> exact ⟨rfl, rfl, rfl⟩
  | updateValues vs o =>
    cases o with
    | netErr msg => exact ⟨rfl, rfl, rfl⟩
    | resp status body =>
      simp only [Entry.step, Entry.updateValues]
      split <;> exact ⟨rfl, rfl, rfl⟩
  | delete o =>
    cases o with
    | netErr msg => exact ⟨rfl, rfl, rfl⟩
    | resp status body =>
      simp only [Entry.step, Entry.delete]
      split <;> exact ⟨rfl, rfl, rfl⟩

theorem Entry.run_fields (e : Entry) (ops : List EntryOp) :
    (Entry.run e ops).entryId = e.entryId ∧
    (Entry.run e ops).accessToken = e.accessToken ∧
    (Entry.run e ops).collectionName = e.collectionName := by
  induction ops generalizing e with
  | nil => exact ⟨rfl, rfl, rfl⟩
  | cons op tl ih =>
    obtain ⟨h1, h2, h3⟩ := Entry.step_fields e op
    obtain ⟨g1, g2, g3⟩ := ih (Entry.step e op)
    exact ⟨g1.trans h1, g2.trans h2, g3.trans h3⟩

theorem SubscriptionManager.subsOf_setSubs_self (m : SubscriptionManager)
    (k : EventKind) (ls : List Listener) : (m.setSubs k ls).subsOf k = some ls := by
  cases k <;> rfl

theorem SubscriptionManager.subsOf_setSubs_ne (m : SubscriptionManager)
    (k k' : EventKind) (ls : List Listener) (h : k' ≠ k) :
    (m.setSubs k ls).subsOf k' = m.subsOf k' := by
  cases k <;> cases k' <;> first
    | exact absurd rfl h
    | rfl

theorem SubscriptionManager.subsOf_subscribe_self (m : SubscriptionManager)
    (k : EventKind) (f : Listener) :
    (m.subscribe k f).subsOf k = some ((m.subsOf k).getD [] ++ [f]) :=
  SubscriptionManager.subsOf_setSubs_self m k _

theorem SubscriptionManager.subsOf_subscribe_ne (m : SubscriptionManager)
    (k k' : EventKind) (f : Listener) (h : k' ≠ k) :
    (m.subscribe k f).subsOf k' = m.subsOf k' :=
  SubscriptionManager.subsOf_setSubs_ne m k k' _ h

theorem SubscriptionManager.subsOf_subscribeAll_not_mem
    (trace : List (EventKind × Listener)) (k : EventKind) :
    ∀ m : SubscriptionManager, (∀ p ∈ trace, p.1 ≠ k) →
      (m.subscribeAll trace).subsOf k = m.subsOf k := by
  induction trace with
  | nil => intro m _; rfl
  | cons p tl ih =>
    intro m h
    have hp : p.1 ≠ k := h p (List.mem_cons_self p tl)
    have htl : ∀ q ∈ tl, q.1 ≠ k := fun q hq => h q (List.mem_cons_of_mem p hq)
    have hstep : (m.subscribe p.1 p.2).subsOf k = m.subsOf k :=
      SubscriptionManager.subsOf_subscribe_ne m p.1 k p.2 (fun hh => hp hh.symm)
    calc (m.subscribeAll (p :: tl)).subsOf k
        = ((m.subscribe p.1 p.2).subscribeAll tl).subsOf k := rfl
      _ = (m.subscribe p.1 p.2).subsOf k := ih _ htl
      _ = m.subsOf k := hstep

theorem SubscriptionManager.subsOf_subscribeAll_eq_none
    (trace : List (EventKind × Listener)) (k : EventKind) :
    ∀ m : SubscriptionManager, (m.subscribeAll trace).subsOf k = none →
      m.subsOf k = none ∧ ∀ p ∈ trace, p.1 ≠ k := by
  induction trace with
  | nil => intro m h; exact ⟨h, by simp⟩
  | cons p tl ih =>
    intro m h
    obtain ⟨h1, h2⟩ := ih (m.subscribe p.1 p.2) h
    by_cases hpk : p.1 = k
    · rw [hpk] at h1
      rw [SubscriptionManager.subsOf_subscribe_self m k p.2] at h1
      cases h1
    · rw [SubscriptionManager.subsOf_subscribe_ne m p.1 k p.2
        (fun hh => hpk hh.symm)] at h1
      refine ⟨h1, ?_⟩
      intro q hq
      rcases List.mem_cons.mp hq with hq | hq
      · rw [hq]; exact hpk
      · exact h2 q hq

theorem dispatchList_getElem (ls : List Listener) (args : DispatchArgs) (i : Nat) :
    (dispatchList ls args)[i]? = (ls[i]?).map (fun f => f args) := by
  induction ls generalizing i with
  | nil => simp [dispatchList]
  | cons f rest ih =>
    cases i with
    | zero => simp [dispatchList]
    | succ n => simpa [dispatchList] using ih n

/-! ### Claim theorems -/

/-- C1 (counterexample): an owned-entry `updateValue` call whose response has
status 401 — even with a truthy `success` body — raises `EntryUpdateFailed`,
not `Unauthorized`, because `Entry.updateValue` only tests `status !== 200`. -/
theorem updateValue_401_raises_entryUpdateFailed_not_unauthorized :
    (Entry.updateValue (Entry.fromData "tok" "users" [("_id", Val.str "e1")])
        "a" (Val.num 2)
        (FetchOutcome.resp 401 (some ⟨true, Val.null, [], 0, 0⟩))).1
      = Except.error (MErr.entryUpdateFailed (Cause.message "Failed to update entry")) ∧
    MErr.entryUpdateFailed (Cause.message "Failed to update entry")
      ≠ MErr.unauthorized := by
  exact ⟨rfl, by decide⟩

/-- C1 (amended): every client and collection-gateway operation raises
`Unauthorized` on a 401 response regardless of the body's `success` field,
while the owned-entry operations `updateValue`, `updateValues` and `delete`
never test for 401 and classify a 401 response as `EntryUpdateFailed` like any
other non-200 status. -/
theorem unauthorized_401_classification (cl : Client) (c : Collection) (e : Entry)
    (name id k : String) (d vs fd : EntryData) (f : Option EntryData) (v : Val)
    (b : Option JsonBody) :
    Client.fetchCollection cl name (FetchOutcome.resp 401 b) = .error .unauthorized ∧
    Client.createCollection cl name (FetchOutcome.resp 401 b) = .error .unauthorized ∧
    Collection.drop c (FetchOutcome.resp 401 b) = .error .unauthorized ∧
    (Collection.setName c name (FetchOutcome.resp 401 b)).1 = .error .unauthorized ∧
    Collection.exists c (FetchOutcome.resp 401 b) = .error .unauthorized ∧
    Collection.createEntry c d (FetchOutcome.resp 401 b) = .error .unauthorized ∧
    Collection.getEntryById c id (FetchOutcome.resp 401 b) = .error .unauthorized ∧
    Collection.getEntries c f (FetchOutcome.resp 401 b) = .error .unauthorized ∧
    Collection.deleteEntryById c id (FetchOutcome.resp 401 b) = .error .unauthorized ∧
    Collection.deleteEntries c f (FetchOutcome.resp 401 b) = .error .unauthorized ∧
    Collection.updateEntryById c id vs (FetchOutcome.resp 401 b) = .error .unauthorized ∧
    Collection.updateEntries c fd vs (FetchOutcome.resp 401 b) = .error .unauthorized ∧
    (Entry.updateValue e k v (FetchOutcome.resp 401 b)).1
      = .error (.entryUpdateFailed (.message "Failed to update entry")) ∧
    (Entry.updateValues e vs (FetchOutcome.resp 401 b)).1
      = .error (.entryUpdateFailed (.message "Failed to update entry")) ∧
    (Entry.delete e (FetchOutcome.resp 401 b)).1
      = .error (.entryUpdateFailed (.message "Could not delete entry")) := by
  exact ⟨rfl, rfl, rfl, rfl, rfl, rfl, rfl, rfl, rfl, rfl, rfl, rfl, rfl, rfl, rfl⟩

/-- C2: a failed `updateValue` or `updateValues` call leaves the local field
mapping (and the whole entry state) exactly as it was before the call. -/
theorem update_failure_preserves_values (e : Entry) (k : String) (v : Val)
    (vs : EntryData) (o : FetchOutcome) (err err' : MErr) :
    ((Entry.updateValue e k v o).1 = .error err →
      (Entry.updateValue e k v o).2.getValues = e.getValues ∧
      (Entry.updateValue e k v o).2 = e) ∧
    ((Entry.updateValues e vs o).1 = .error err' →
      (Entry.updateValues e vs o).2.getValues = e.getValues ∧
      (Entry.updateValues e vs o).2 = e) := by
  constructor
  · intro h
    cases o with
    | netErr msg => exact ⟨rfl, rfl⟩
    | resp status body =>
      by_cases hs : status = 200
      · subst hs
        simp [Entry.updateValue] at h
      · simp [Entry.updateValue, if_pos hs]
  · intro h
    cases o with
    | netErr msg => exact ⟨rfl, rfl⟩
    | resp status body =>
      by_cases hs : status = 200
      · subst hs
        simp [Entry.updateValues] at h
      · simp [Entry.updateValues, if_pos hs]

/-- C2 (witness): a transport failure on a concrete entry raises and leaves
the mapping untouched. -/
theorem update_failure_preserves_values_witness :
    (Entry.updateValue (Entry.fromData "tok" "users"
        [("_id", Val.str "e1"), ("a", Val.num 1)])
        "a" (Val.num 2) (FetchOutcome.netErr "boom")).1
      = Except.error (MErr.entryUpdateFailed (Cause.transport "boom")) ∧
    (Entry.updateValue (Entry.fromData "tok" "users"
        [("_id", Val.str "e1"), ("a", Val.num 1)])
        "a" (Val.num 2) (FetchOutcome.netErr "boom")).2.getValues
      = (Entry.fromData "tok" "users"
          [("_id", Val.str "e1"), ("a", Val.num 1)]).getValues := by
  exact ⟨rfl,
    ((update_failure_preserves_values
      (Entry.fromData "tok" "users" [("_id", Val.str "e1"), ("a", Val.num 1)])
      "a" (Val.num 2) [] (FetchOutcome.netErr "boom")
      (MErr.entryUpdateFailed (Cause.transport "boom")) MErr.unauthorized).1 rfl).1⟩

/-- C3: a successful `updateValue(k, v)` makes `k` map to `v`, leaves every
other key unchanged, and returns the entry's resulting full field mapping. -/
theorem updateValue_success_effect (e : Entry) (k : String) (v : Val) (o : FetchOutcome)
    (d : EntryData) (h : (Entry.updateValue e k v o).1 = .ok d) :
    lookupKey (Entry.updateValue e k v o).2.getValues k = some v ∧
    (∀ k', k' ≠ k → lookupKey (Entry.updateValue e k v o).2.getValues k'
      = lookupKey e.getValues k') ∧
    d = (Entry.updateValue e k v o).2.getValues := by
  cases o with
  | netErr msg => simp [Entry.updateValue] at h
  | resp status body =>
    by_cases hs : status = 200
    · subst hs
      simp only [Entry.updateValue, if_neg (fun hh : (200 : Nat) ≠ 200 => hh rfl),
        Entry.getValues] at h ⊢
      injection h with hd
      subst hd
      exact ⟨lookupKey_setKey_self e.data k v,
        fun k' hk => lookupKey_setKey_ne e.data k k' v hk, rfl⟩
    · simp only [Entry.updateValue, if_pos hs] at h
      simp at h

/-- C3 (witness): a concrete successful single-field update. -/
theorem updateValue_success_effect_witness :
    (Entry.updateValue (Entry.fromData "tok" "users"
        [("_id", Val.str "e1"), ("a", Val.num 1)])
        "a" (Val.num 2) (FetchOutcome.resp 200 none)).1
      = Except.ok [("_id", Val.str "e1"), ("a", Val.num 2)] ∧
    lookupKey (Entry.updateValue (Entry.fromData "tok" "users"
        [("_id", Val.str "e1"), ("a", Val.num 1)])
        "a" (Val.num 2) (FetchOutcome.resp 200 none)).2.getValues "a"
      = some (Val.num 2) := by
  exact ⟨rfl,
    (updateValue_success_effect
      (Entry.fromData "tok" "users" [("_id", Val.str "e1"), ("a", Val.num 1)])
      "a" (Val.num 2) (FetchOutcome.resp 200 none)
      [("_id", Val.str "e1"), ("a", Val.num 2)] rfl).1⟩

/-- C4 (counterexample): a failing `Entry.delete` raises `EntryUpdateFailed`
with the fixed message "Could not delete entry", discarding the underlying
transport cause. -/
theorem delete_failure_discards_cause :
    (Entry.delete (Entry.fromData "tok" "users" [("_id", Val.str "e1")])
        (FetchOutcome.netErr "ECONNREFUSED")).1
      = Except.error (MErr.entryUpdateFailed (Cause.message "Could not delete entry")) ∧
    Cause.message "Could not delete entry" ≠ Cause.transport "ECONNREFUSED" := by
  exact ⟨rfl, by decide⟩

/-- C4 (amended): failing `updateValue`/`updateValues` calls raise
`EntryUpdateFailed` carrying the underlying cause (the transport error, or the
locally thrown status-failure message), while a failing `delete` always raises
`EntryUpdateFailed` with the fixed message "Could not delete entry",
discarding the cause. -/
theorem entry_mutation_failure_causes (e : Entry) (k : String) (v : Val)
    (vs : EntryData) (msg : String) (status : Nat) (body : Option JsonBody) :
    (Entry.updateValue e k v (FetchOutcome.netErr msg)).1
      = .error (.entryUpdateFailed (.transport msg)) ∧
    (status ≠ 200 → (Entry.updateValue e k v (FetchOutcome.resp status body)).1
      = .error (.entryUpdateFailed (.message "Failed to update entry"))) ∧
    (Entry.updateValues e vs (FetchOutcome.netErr msg)).1
      = .error (.entryUpdateFailed (.transport msg)) ∧
    (status ≠ 200 → (Entry.updateValues e vs (FetchOutcome.resp status body)).1
      = .error (.entryUpdateFailed (.message "Failed to update entry"))) ∧
    (Entry.delete e (FetchOutcome.netErr msg)).1
      = .error (.entryUpdateFailed (.message "Could not delete entry")) ∧
    (status ≠ 200 → (Entry.delete e (FetchOutcome.resp status body)).1
      = .error (.entryUpdateFailed (.message "Could not delete entry"))) := by
  refine ⟨rfl, ?_, rfl, ?_, rfl, ?_⟩
  · intro hs; simp [Entry.updateValue, if_pos hs]
  · intro hs; simp [Entry.updateValues, if_pos hs]
  · intro hs; simp [Entry.delete, if_pos hs]

/-- C4 (witness): the amended statement at a concrete entry and a concrete
non-200 status. -/
theorem entry_mutation_failure_causes_witness :
    (Entry.updateValue (Entry.fromData "tok" "users" [("_id", Val.str "e1")])
        "a" (Val.num 2) (FetchOutcome.resp 500 none)).1
      = Except.error (MErr.entryUpdateFailed (Cause.message "Failed to update entry")) ∧
    (Entry.delete (Entry.fromData "tok" "users" [("_id", Val.str "e1")])
        (FetchOutcome.resp 500 none)).1
      = Except.error (MErr.entryUpdateFailed (Cause.message "Could not delete entry")) := by
  have h := entry_mutation_failure_causes
    (Entry.fromData "tok" "users" [("_id", Val.str "e1")])
    "a" (Val.num 2) [] "boom" 500 none
  exact ⟨h.2.1 (by decide), h.2.2.2.2.2 (by decide)⟩

/-- C5 (counterexample): `Collection.createEntry` posts to the v0 entries
endpoint, not the v1 endpoint the claim names. -/
theorem createEntry_targets_v0_not_v1 :
    (Collection.createEntryRequest ⟨"tok", "users"⟩ [("name", Val.str "x")]).url
      = "https://api.marcsync.dev/v0/entries/users" ∧
    (Collection.createEntryRequest ⟨"tok", "users"⟩ [("name", Val.str "x")]).url
      ≠ "https://api.marcsync.dev/v1/entries/users" := by
  exact ⟨rfl, by decide⟩

/-- C5 (amended): `createEntry(data)` issues `POST /v0/entries/{name}` with
body `{data}`; on a success response the server-assigned `objectId` is merged
into the submitted mapping under `_id` and an owned `Entry` built from the
merged mapping (and bound to that identifier) is returned. -/
theorem createEntry_request_and_merge (c : Collection) (data : EntryData)
    (b : JsonBody) (status : Nat) (h401 : status ≠ 401) (hs : b.success = true) :
    (Collection.createEntryRequest c data).url
      = "https://api.marcsync.dev/v0/entries/" ++ c.collectionName ∧
    (Collection.createEntryRequest c data).method = "POST" ∧
    (Collection.createEntryRequest c data).authorization = c.accessToken ∧
    (Collection.createEntryRequest c data).body = ReqBody.data data ∧
    Collection.createEntry c data (FetchOutcome.resp status (some b))
      = .ok (Entry.fromData c.accessToken c.collectionName
          (setKey data "_id" b.objectId)) ∧
    (Entry.fromData c.accessToken c.collectionName
        (setKey data "_id" b.objectId)).entryId = some b.objectId ∧
    (Entry.fromData c.accessToken c.collectionName
        (setKey data "_id" b.objectId)).data = setKey data "_id" b.objectId := by
  refine ⟨rfl, rfl, rfl, rfl, ?_, ?_, rfl⟩
  · simp [Collection.createEntry, h401, hs]
  · simp [Entry.fromData, lookupKey_setKey_self]

/-- C5 (witness): the amended statement at a concrete gateway, payload and
success body. -/
theorem createEntry_request_and_merge_witness :
    Collection.createEntry ⟨"tok", "users"⟩ [("name", Val.str "x")]
        (FetchOutcome.resp 200 (some ⟨true, Val.str "e1", [], 0, 0⟩))
      = Except.ok (Entry.fromData "tok" "users"
          [("name", Val.str "x"), ("_id", Val.str "e1")]) ∧
    (Entry.fromData "tok" "users"
        [("name", Val.str "x"), ("_id", Val.str "e1")]).entryId
      = some (Val.str "e1") := by
  have h := createEntry_request_and_merge ⟨"tok", "users"⟩ [("name", Val.str "x")]
    ⟨true, Val.str "e1", [], 0, 0⟩ 200 (by decide) rfl
  exact ⟨h.2.2.2.2.1, h.2.2.2.2.2.1⟩

/-- C6: with a success body, `deleteEntryById` raises `EntryNotFound` exactly
when the server reports zero deletions, while `deleteEntries` returns the
reported count as a normal result — zero included. -/
theorem delete_single_vs_bulk_zero (c : Collection) (id : String)
    (f : Option EntryData) (b : JsonBody) (status : Nat)
    (h401 : status ≠ 401) (hs : b.success = true) :
    (b.deletedEntries = 0 →
      Collection.deleteEntryById c id (FetchOutcome.resp status (some b))
        = .error (.entryNotFound "Failed to delete entry")) ∧
    (b.deletedEntries ≠ 0 →
      Collection.deleteEntryById c id (FetchOutcome.resp status (some b))
        = .ok id) ∧
    Collection.deleteEntries c f (FetchOutcome.resp status (some b))
      = .ok b.deletedEntries := by
  refine ⟨?_, ?_, ?_⟩
  · intro h0; simp [Collection.deleteEntryById, h401, hs, h0]
  · intro h0; simp [Collection.deleteEntryById, h401, hs, h0]
  · simp [Collection.deleteEntries, h401, hs]

/-- C6 (witness): a zero-deletion success body at a concrete gateway: the
single-entry form raises, the bulk form returns 0. -/
theorem delete_single_vs_bulk_zero_witness :
    Collection.deleteEntryById ⟨"tok", "users"⟩ "e1"
        (FetchOutcome.resp 200 (some ⟨true, Val.null, [], 0, 0⟩))
      = Except.error (MErr.entryNotFound "Failed to delete entry") ∧
    Collection.deleteEntries ⟨"tok", "users"⟩ (some [])
        (FetchOutcome.resp 200 (some ⟨true, Val.null, [], 0, 0⟩))
      = Except.ok 0 := by
  have h := delete_single_vs_bulk_zero ⟨"tok", "users"⟩ "e1" (some [])
    ⟨true, Val.null, [], 0, 0⟩ 200 (by decide) rfl
  exact ⟨h.1 rfl, h.2.2⟩

/-- C7: `setName` — whatever the outcome — leaves the gateway state unchanged:
`getName` still returns the constructed name and subsequent requests still
target the old name. -/
theorem setName_preserves_cached_name (c : Collection) (newName : String)
    (o : FetchOutcome) :
    (Collection.setName c newName o).2 = c ∧
    Collection.getName (Collection.setName c newName o).2 = c.collectionName ∧
    Collection.existsRequest (Collection.setName c newName o).2
      = Collection.existsRequest c ∧
    (Collection.existsRequest (Collection.setName c newName o).2).url
      = "https://api.marcsync.dev/v0/collection/" ++ c.collectionName := by
  exact ⟨rfl, rfl, rfl, rfl⟩

/-- C8: over any sequence of owned-entry calls, the identifier captured at
construction (with the credential and collection name) is invariant, so every
later request still filters on the original identifier; each single step
replaces only the field mapping, and only when the response status was 200. -/
theorem entry_identifier_immutable (e : Entry) (ops : List EntryOp)
    (k : String) (v : Val) (vs : EntryData) (msg : String) (status : Nat)
    (body : Option JsonBody) (d : EntryData) (o : FetchOutcome) :
    (Entry.run e ops).entryId = e.entryId ∧
    (Entry.run e ops).accessToken = e.accessToken ∧
    (Entry.run e ops).collectionName = e.collectionName ∧
    (Entry.run e ops).updateRequest d = e.updateRequest d ∧
    (Entry.run e ops).deleteRequest = e.deleteRequest ∧
    Entry.step e (EntryOp.updateValue k v (FetchOutcome.netErr msg)) = e ∧
    Entry.step e (EntryOp.updateValue k v (FetchOutcome.resp status body))
      = (if status = 200 then { e with data := setKey e.data k v } else e) ∧
    Entry.step e (EntryOp.updateValues vs (FetchOutcome.netErr msg)) = e ∧
    Entry.step e (EntryOp.updateValues vs (FetchOutcome.resp status body))
      = (if status = 200 then { e with data := applyValues e.data vs } else e) ∧
    Entry.step e (EntryOp.delete o) = e := by
  obtain ⟨h1, h2, h3⟩ := Entry.run_fields e ops
  refine ⟨h1, h2, h3, ?_, ?_, rfl, ?_, rfl, ?_, ?_⟩
  · simp [Entry.updateRequest, Entry.idFilters, h1, h2, h3]
  · simp [Entry.deleteRequest, Entry.idFilters, h1, h2, h3]
  · by_cases hs : status = 200
    · subst hs; simp [Entry.step, Entry.updateValue]
    · simp [Entry.step, Entry.updateValue, hs]
  · by_cases hs : status = 200
    · subst hs; simp [Entry.step, Entry.updateValues]
    · simp [Entry.step, Entry.updateValues, hs]
  · cases o with
    | netErr msg => rfl
    | resp status body =>
      simp only [Entry.step, Entry.delete]
      split <;> rfl

/-- C9: when a listener list is registered for a kind, dispatch invokes every
listener of that list in registration order with the same arguments; each
listener's recorded outcome is independent of the others raising or not, and
`subscribe` appends at the end of the list. -/
theorem dispatch_invokes_all_listeners_in_order (m : SubscriptionManager)
    (k : EventKind) (args : DispatchArgs) (ls : List Listener)
    (h : m.subsOf k = some ls) :
    m.dispatch k args = .ok (dispatchList ls args) ∧
    (∀ i : Nat, (dispatchList ls args)[i]? = (ls[i]?).map (fun f => f args)) ∧
    (∀ (f : Listener) (rest : List Listener),
      dispatchList (f :: rest) args = f args :: dispatchList rest args) ∧
    (∀ f : Listener, (m.subscribe k f).subsOf k = some (ls ++ [f])) := by
  refine ⟨?_, fun i => dispatchList_getElem ls args i, fun f rest => rfl, ?_⟩
  · simp [SubscriptionManager.dispatch, h]
  · intro f
    simp [SubscriptionManager.subsOf_subscribe_self, h]

/-- C9 (witness): two listeners for one kind, the first of which raises; both
are invoked in order with the same arguments. -/
theorem dispatch_invokes_all_listeners_in_order_witness :
    (((SubscriptionManager.new "tok").subscribe EventKind.entryCreated
        (fun _ => Except.error "boom")).subscribe EventKind.entryCreated
        (fun _ => Except.ok ())).subsOf EventKind.entryCreated
      = some [fun _ => Except.error "boom", fun _ => Except.ok ()] ∧
    (((SubscriptionManager.new "tok").subscribe EventKind.entryCreated
        (fun _ => Except.error "boom")).subscribe EventKind.entryCreated
        (fun _ => Except.ok ())).dispatch EventKind.entryCreated
        (DispatchArgs.created (Entry.fromData "tok" "c" []) "db" 0)
      = Except.ok (dispatchList
          [fun _ => Except.error "boom", fun _ => Except.ok ()]
          (DispatchArgs.created (Entry.fromData "tok" "c" []) "db" 0)) ∧
    dispatchList [fun _ => Except.error "boom", fun _ => Except.ok ()]
        (DispatchArgs.created (Entry.fromData "tok" "c" []) "db" 0)
      = [Except.error "boom", Except.ok ()] := by
  exact ⟨rfl,
    (dispatch_invokes_all_listeners_in_order
      (((SubscriptionManager.new "tok").subscribe EventKind.entryCreated
        (fun _ => Except.error "boom")).subscribe EventKind.entryCreated
        (fun _ => Except.ok ()))
      EventKind.entryCreated
      (DispatchArgs.created (Entry.fromData "tok" "c" []) "db" 0)
      [fun _ => Except.error "boom", fun _ => Except.ok ()] rfl).1,
    rfl⟩

/-- C10: the per-kind listener list exists only after a `subscribe` for that
kind, so a freshly constructed manager's handlers throw a `TypeError` for
every kind, dispatch after any subscription run that never targeted the
arriving kind still throws, and dispatch succeeds once some subscription in
the run targeted that kind. -/
theorem dispatch_requires_prior_subscription (token : String)
    (trace : List (EventKind × Listener)) (k : EventKind) (args : DispatchArgs)
    (e1 : EntryCreatedEvent) (e2 : EntryUpdatedEvent) (e3 : EntryDeletedEvent) :
    (SubscriptionManager.new token).onEntryCreated e1 = .error forEachTypeError ∧
    (SubscriptionManager.new token).onEntryUpdated e2 = .error forEachTypeError ∧
    (SubscriptionManager.new token).onEntryDeleted e3 = .error forEachTypeError ∧
    ((∀ p ∈ trace, p.1 ≠ k) →
      ((SubscriptionManager.new token).subscribeAll trace).dispatch k args
        = .error forEachTypeError) ∧
    ((∃ p ∈ trace, p.1 = k) →
      ∃ rs, ((SubscriptionManager.new token).subscribeAll trace).dispatch k args
        = .ok rs) := by
  refine ⟨rfl, rfl, rfl, ?_, ?_⟩
  · intro h
    have hn : ((SubscriptionManager.new token).subscribeAll trace).subsOf k
        = (SubscriptionManager.new token).subsOf k :=
      SubscriptionManager.subsOf_subscribeAll_not_mem trace k _ h
    have hz : (SubscriptionManager.new token).subsOf k = none := by
      cases k <;> rfl
    simp [SubscriptionManager.dispatch, hn, hz]
  · rintro ⟨p, hp, hpk⟩
    cases hls : ((SubscriptionManager.new token).subscribeAll trace).subsOf k with
    | none =>
      obtain ⟨-, hall⟩ :=
        SubscriptionManager.subsOf_subscribeAll_eq_none trace k _ hls
      exact absurd hpk (hall p hp)
    | some ls =>
      exact ⟨dispatchList ls args, by simp [SubscriptionManager.dispatch, hls]⟩

/-- C10 (witness): the empty subscription run makes `entryCreated` dispatch
throw, and one `entryUpdated` subscription makes `entryUpdated` dispatch
succeed. -/
theorem dispatch_requires_prior_subscription_witness :
    (SubscriptionManager.subscribeAll (SubscriptionManager.new "tok") []).dispatch
        EventKind.entryCreated
        (DispatchArgs.created (Entry.fromData "tok" "c" []) "db" 0)
      = Except.error forEachTypeError ∧
    ∃ rs, (SubscriptionManager.subscribeAll (SubscriptionManager.new "tok")
        [(EventKind.entryUpdated, fun _ => Except.ok ())]).dispatch
        EventKind.entryUpdated
        (DispatchArgs.created (Entry.fromData "tok" "c" []) "db" 0)
      = Except.ok rs := by
  constructor
  · exact (dispatch_requires_prior_subscription "tok" [] EventKind.entryCreated
      (DispatchArgs.created (Entry.fromData "tok" "c" []) "db" 0)
      ⟨"db", 0, 0, "c", []⟩ ⟨"db", 0, 0, "c", [], []⟩ ⟨"db", 0, 0, "c", []⟩).2.2.2.1
      (by simp)
  · exact (dispatch_requires_prior_subscription "tok"
      [(EventKind.entryUpdated, fun _ => Except.ok ())] EventKind.entryUpdated
      (DispatchArgs.created (Entry.fromData "tok" "c" []) "db" 0)
      ⟨"db", 0, 0, "c", []⟩ ⟨"db", 0, 0, "c", [], []⟩ ⟨"db", 0, 0, "c", []⟩).2.2.2.2
      ⟨(EventKind.entryUpdated, fun _ => Except.ok ()),
        List.mem_cons_self _ _, rfl⟩

end Marcsync
